import Mathlib

/-!
Shallow embedding of `progenitor-client/src/progenitor_client.rs`: the
`ResponseValue<T>` wrapper, the `Error<E>` taxonomy with `status()` and
`into_untyped()`, the construction paths (`from_response`, `upgrade`),
`content_length()`, `map`, path-segment percent-encoding (`encode_path`),
and the `RequestBuilderExt` form helpers.

External collaborators (reqwest, serde) are modelled explicitly:
  - header values are byte lists (a `reqwest::header::HeaderValue` holds bytes);
  - `reqwest::Error` is modelled by its observable parts: an optional status
    (what `Error::status()` reads) and a message (what `Display` reads);
  - `reqwest::Response` is modelled by its status and headers; body decoding
    (`response.json()`) and the upgrade handshake (`response.upgrade()`) are
    passed in as functions, since their outcomes are produced by reqwest;
  - `u64::from_str` (used by `content_length`) is modelled from Rust std
    semantics: optional leading plus sign, one or more ASCII digits, and the
    value must fit in 64 bits.
-/

namespace Progenitor

/-- Bytes of one header value (`reqwest::header::HeaderValue`). -/
abbrev HeaderValue := List Nat

/-- Source `reqwest::header::HeaderMap`: ordered multimap; names are stored
lowercase (an invariant of the `http` crate's `HeaderName`). -/
abbrev HeaderMap := List (String × HeaderValue)

/-- Observable parts of a `reqwest::Error`: `status()` (absent unless the
error was generated from a response) and the `Display` message. -/
structure ReqwestError where
  status : Option Nat
  message : String
  deriving DecidableEq

/-- Observable parts of a `reqwest::Response`: status and headers. -/
structure Response where
  status : Nat
  headers : HeaderMap
  deriving DecidableEq

/-- Opaque upgraded-connection handle (`reqwest::Upgraded`). -/
structure Upgraded where
  token : Nat
  deriving DecidableEq

/-- Source `ResponseValue<T>`: typed body plus status and headers. -/
structure ResponseValue (T : Type) where
  inner : T
  status : Nat
  headers : HeaderMap
  deriving DecidableEq

/-- Source `ResponseValue::into_inner`. -/
def ResponseValue.into_inner {T : Type} (rv : ResponseValue T) : T := rv.inner

/-- Source `Error<E>`: the five-variant error taxonomy. -/
inductive Error (E : Type) where
  | InvalidRequest : String → Error E
  | CommunicationError : ReqwestError → Error E
  | ErrorResponse : ResponseValue E → Error E
  | InvalidResponsePayload : ReqwestError → Error E
  | UnexpectedResponse : Response → Error E
  deriving DecidableEq

/-- Source `Error::status`. -/
def Error.status {E : Type} : Error E → Option Nat
  | .InvalidRequest _ => none
  | .CommunicationError e => e.status
  | .ErrorResponse rv => some rv.status
  | .InvalidResponsePayload e => e.status
  | .UnexpectedResponse r => some r.status

/-- Source `Error::into_untyped` (Rust `Error<()>` is `Error Unit` here). -/
def Error.into_untyped {E : Type} : Error E → Error Unit
  | .InvalidRequest s => .InvalidRequest s
  | .CommunicationError e => .CommunicationError e
  | .ErrorResponse rv =>
      .ErrorResponse { inner := (), status := rv.status, headers := rv.headers }
  | .InvalidResponsePayload e => .InvalidResponsePayload e
  | .UnexpectedResponse r => .UnexpectedResponse r

/-- Source `reqwest::StatusCode::SWITCHING_PROTOCOLS`. -/
def SWITCHING_PROTOCOLS : Nat := 101

/-- Source `ResponseValue::from_response`: capture status and headers, then decode
the body; `json` models `response.json::<T>()`. -/
def ResponseValue.from_response {T E : Type}
    (json : Response → Except ReqwestError T) (response : Response) :
    Except (Error E) (ResponseValue T) :=
  let status := response.status
  let headers := response.headers
  match json response with
  | .error e => .error (Error.InvalidResponsePayload e)
  | .ok inner => .ok { inner := inner, status := status, headers := headers }

/-- Source `ResponseValue::upgrade`: capture status and headers; on status 101
obtain the upgraded handle (`up` models `response.upgrade()`), otherwise
`UnexpectedResponse`. -/
def ResponseValue.upgrade {E : Type}
    (up : Response → Except ReqwestError Upgraded) (response : Response) :
    Except (Error E) (ResponseValue Upgraded) :=
  let status := response.status
  let headers := response.headers
  if status = SWITCHING_PROTOCOLS then
    match up response with
    | .error e => .error (Error.InvalidResponsePayload e)
    | .ok inner => .ok { inner := inner, status := status, headers := headers }
  else
    .error (Error.UnexpectedResponse response)

/-- Source `ResponseValue::map`: always `Ok`, body through `f`, metadata kept. -/
def ResponseValue.map {T U E : Type} (rv : ResponseValue T) (f : T → U) :
    Except E (ResponseValue U) :=
  Except.ok { inner := f rv.inner, status := rv.status, headers := rv.headers }

/-- Source `HeaderMap::get`: first value stored under `name`. -/
def HeaderMap.get (headers : HeaderMap) (name : String) : Option HeaderValue :=
  (headers.find? (fun p => p.1 == name)).map Prod.snd

/-- Source `reqwest::header::CONTENT_LENGTH`. -/
def CONTENT_LENGTH : String := "content-length"

/-- Source `HeaderValue::to_str`: succeeds exactly when every byte is visible
ASCII (32..126) or horizontal tab. -/
def HeaderValue.to_str (v : HeaderValue) : Option String :=
  if v.all (fun b => (32 ≤ b && b < 127) || b == 9) then
    some (String.mk (v.map Char.ofNat))
  else
    none

/-- Strips the optional leading plus sign accepted by Rust's unsigned
integer parser. -/
def dropPlus (cs : List Char) : List Char :=
  match cs with
  | '+' :: rest => rest
  | cs => cs

/-- Decimal value of a digit string (the accumulation performed by Rust's
unsigned integer parser). -/
def digitsValue (ds : List Char) : Nat :=
  ds.foldl (fun a ch => a * 10 + (ch.toNat - 48)) 0

/-- Rust `str::parse::<u64>()`: optional leading plus sign, then one or
more ASCII digits, value below 2^64; anything else fails. -/
def parseU64 (s : String) : Option Nat :=
  let ds := dropPlus s.data
  if ds ≠ [] ∧ ds.all Char.isDigit then
    if digitsValue ds < 2 ^ 64 then some (digitsValue ds) else none
  else none

/-- Source `ResponseValue::content_length`: the `?`-chain
`headers.get(CONTENT_LENGTH)?.to_str().ok()?.parse::<u64>().ok()`. -/
def ResponseValue.content_length {T : Type} (rv : ResponseValue T) :
    Option Nat :=
  (HeaderMap.get rv.headers CONTENT_LENGTH).bind
    (fun hv => (HeaderValue.to_str hv).bind parseU64)

end Progenitor

namespace Progenitor

/-- The bytes added to `percent_encoding::CONTROLS` by the `PATH_SET`
constant: space, double quote, hash, less-than, greater-than, question
mark, backtick, left brace, right brace, slash, percent. -/
def pathSetAdditions : List Nat := [32, 34, 35, 60, 62, 63, 96, 123, 125, 47, 37]

/-- Source `percent_encoding::CONTROLS`: the C0 controls (0x00..0x1F) and 0x7F. -/
def isAsciiControl (b : Nat) : Bool := b < 32 || b == 127

/-- Membership in the `PATH_SET` encode set. -/
def inPathSet (b : Nat) : Bool := isAsciiControl b || pathSetAdditions.contains b

/-- Uppercase hexadecimal digit, as emitted by `percent_encoding`. -/
def hexUpper (n : Nat) : Nat := if n < 10 then 48 + n else 55 + n

/-- One byte of `utf8_percent_encode` output: bytes in the encode set
become a percent sign followed by two uppercase hex digits; all other
bytes pass through. -/
def encodeByte (b : Nat) : List Nat :=
  if inPathSet b then [37, hexUpper (b / 16), hexUpper (b % 16)] else [b]

/-- Source `encode_path`: percent-encode the UTF-8 bytes of a path component
against `PATH_SET`. -/
def encode_path (bs : List Nat) : List Nat := bs.flatMap encodeByte

/-- Source `reqwest::multipart::Form`: an ordered list of (part-name, bytes). -/
abbrev Form := List (String × List Nat)

/-- Source `Form::new`. -/
def Form.new : Form := []

/-- Source `Form::part`: append one named part. -/
def Form.part (form : Form) (name : String) (value : List Nat) : Form :=
  form ++ [(name, value)]

/-- Source `Part::stream` on an owned byte vector: the part carries exactly those
bytes. -/
def Part.stream (bytes : List Nat) : List Nat := bytes

/-- Observable parts of a `reqwest::RequestBuilder`: accumulated headers,
an optional plain body, and an optional multipart form body. -/
structure RequestBuilder where
  headers : List (String × String)
  body : Option String
  form : Option Form
  deriving DecidableEq

/-- Source `RequestBuilder::header`: record one more header. -/
def RequestBuilder.header (rb : RequestBuilder) (name value : String) :
    RequestBuilder :=
  { rb with headers := rb.headers ++ [(name, value)] }

/-- Source `RequestBuilder::body` (named `withBody` because `body` is the field). -/
def RequestBuilder.withBody (rb : RequestBuilder) (b : String) :
    RequestBuilder :=
  { rb with body := some b }

/-- Source `RequestBuilder::multipart`. -/
def RequestBuilder.multipart (rb : RequestBuilder) (f : Form) :
    RequestBuilder :=
  { rb with form := some f }

/-- Source `RequestBuilderExt::form_urlencoded`: set the content-type header and
install the serialized body; `serialized` models the outcome of
`serde_urlencoded::to_string(body)`, its error case carrying the debug
rendering of the serializer error. -/
def RequestBuilder.form_urlencoded {E : Type} (rb : RequestBuilder)
    (serialized : Except String String) : Except (Error E) RequestBuilder :=
  match serialized with
  | .error e => .error (Error.InvalidRequest ("failed to serialize body: " ++ e))
  | .ok s => .ok ((rb.header "content-type" "application/x-www-form-urlencoded").withBody s)

/-- Source `RequestBuilderExt::form_from_raw`: fold the (name, bytes) pairs into a
multipart form, set the content-type header, and attach the form. -/
def RequestBuilder.form_from_raw {E : Type} (rb : RequestBuilder)
    (pairs : List (String × List Nat)) : Except (Error E) RequestBuilder :=
  let form := pairs.foldl (fun f p => Form.part f p.1 (Part.stream p.2)) Form.new
  .ok ((rb.header "content-type" "multipart/form-data").multipart form)

/-- Source `ErrorFormat::fmt_info` for `ResponseValue<E>`: renders status, headers
and the body's debug form. The renderings of the external pieces (status
line, header map debug, body debug) are passed in, since they are produced
by reqwest's and the body type's formatting code. -/
def ResponseValue.fmt_info {E : Type} (fmtStatus : Nat → String)
    (fmtHeaders : HeaderMap → String) (dbgE : E → String)
    (rv : ResponseValue E) : String :=
  "status: " ++ fmtStatus rv.status ++ "; headers: " ++ fmtHeaders rv.headers
    ++ "; value: " ++ dbgE rv.inner

/-- The `Display` impl for `Error<E>`, one fixed line per variant. -/
def Error.displayString {E : Type} (fmtStatus : Nat → String)
    (fmtHeaders : HeaderMap → String) (dbgE : E → String)
    (dbgResp : Response → String) : Error E → String
  | .InvalidRequest s => "Invalid Request: " ++ s
  | .CommunicationError e => "Communication Error: " ++ e.message
  | .ErrorResponse rve =>
      "Error Response: " ++ ResponseValue.fmt_info fmtStatus fmtHeaders dbgE rve
  | .InvalidResponsePayload e => "Invalid Response Payload: " ++ e.message
  | .UnexpectedResponse r => "Unexpected Response: " ++ dbgResp r

/-- The `Debug` impl for `Error<E>`: it delegates to `Display::fmt`. -/
def Error.debugString {E : Type} (fmtStatus : Nat → String)
    (fmtHeaders : HeaderMap → String) (dbgE : E → String)
    (dbgResp : Response → String) (e : Error E) : String :=
  Error.displayString fmtStatus fmtHeaders dbgE dbgResp e

/-- Written from the spec's words: `s` is a textual unsigned 64-bit decimal
literal denoting `v` — an optional leading plus sign, then one or more
decimal digits, with `v` below 2^64. -/
def specU64Literal (s : String) (v : Nat) : Prop :=
  ∃ ds : List Char, (s.data = ds ∨ s.data = '+' :: ds) ∧ ds ≠ [] ∧
    (∀ c ∈ ds, c.isDigit) ∧ digitsValue ds = v ∧ v < 2 ^ 64

end Progenitor

namespace Progenitor

/-! ## Theorems -/

/-- C3: `into_untyped` rewrites `ErrorResponse` to carry a unit body with the
same status and headers, and maps every other variant to the same variant
with its carried data unchanged. -/
theorem into_untyped_spec {E : Type} :
    (∀ s, (Error.InvalidRequest s : Error E).into_untyped =
      Error.InvalidRequest s) ∧
    (∀ err, (Error.CommunicationError err : Error E).into_untyped =
      Error.CommunicationError err) ∧
    (∀ rv : ResponseValue E, (Error.ErrorResponse rv).into_untyped =
      Error.ErrorResponse { inner := (), status := rv.status, headers := rv.headers }) ∧
    (∀ err, (Error.InvalidResponsePayload err : Error E).into_untyped =
      Error.InvalidResponsePayload err) ∧
    (∀ r, (Error.UnexpectedResponse r : Error E).into_untyped =
      Error.UnexpectedResponse r) :=
  ⟨fun _ => rfl, fun _ => rfl, fun _ => rfl, fun _ => rfl, fun _ => rfl⟩

/-- C5: `map f` keeps status and headers and applies `f` to the body, and
`map id` is a no-op (it returns the input response value unchanged). -/
theorem map_spec {T U E : Type} (rv : ResponseValue T) (f : T → U) :
    rv.map f = (Except.ok { inner := f rv.inner,
                            status := rv.status,
                            headers := rv.headers } : Except E (ResponseValue U)) ∧
    rv.map id = (Except.ok rv : Except E (ResponseValue T)) :=
  ⟨rfl, rfl⟩

/-- C9: `map` always returns the `Ok` constructor of its `Result` type; the
`Err` branch is unreachable for all inputs. -/
theorem map_never_errors {T U E : Type} (rv : ResponseValue T) (f : T → U) :
    ∃ u, rv.map f = (Except.ok u : Except E (ResponseValue U)) :=
  ⟨_, rfl⟩

/-- C1 counterexample: a `CommunicationError` built from a transport error
that carries no status (for example a connection-refused error, which never
obtained a response) makes `status()` absent, refuting the claim that
`status()` returns a status code for every `CommunicationError` value. -/
theorem status_counterexample :
    (Error.CommunicationError { status := none, message := "connection refused" }
      : Error Unit).status = none :=
  rfl

/-- C1 (amended): `status()` is absent for `InvalidRequest` and for
`CommunicationError` or `InvalidResponsePayload` whose transport error
carries no status; it returns the carried response status for
`ErrorResponse` and `UnexpectedResponse` always, and the transport error's
status, when it has one, for the other two network variants. -/
theorem status_amended_spec {E : Type} (e : Error E) :
    (e.status = none ↔
      (∃ s, e = Error.InvalidRequest s) ∨
      (∃ err, e = Error.CommunicationError err ∧ err.status = none) ∨
      (∃ err, e = Error.InvalidResponsePayload err ∧ err.status = none)) ∧
    (∀ rv, e = Error.ErrorResponse rv → e.status = some rv.status) ∧
    (∀ r, e = Error.UnexpectedResponse r → e.status = some r.status) ∧
    (∀ err, e = Error.CommunicationError err → e.status = err.status) ∧
    (∀ err, e = Error.InvalidResponsePayload err → e.status = err.status) ∧
    (∀ s, e = Error.InvalidRequest s → e.status = none) := by
  cases e <;> simp [Error.status]

/-- C1 witness: the amended theorem applied to a concrete
`ErrorResponse` value. -/
theorem status_amended_witness :
    (Error.ErrorResponse { inner := (), status := 404, headers := [] }
      : Error Unit).status = some 404 :=
  (status_amended_spec
    (Error.ErrorResponse { inner := (), status := 404, headers := [] })).2.1
    { inner := (), status := 404, headers := [] } rfl

/-- C2 counterexample: a response whose status is exactly 101 but whose
upgrade handshake fails produces `InvalidResponsePayload` — not a
`ResponseValue` carrying an upgraded handle — refuting the claim that every
status-101 response fed to the upgrade path yields a `ResponseValue`. -/
theorem upgrade_counterexample :
    ResponseValue.upgrade (E := Unit)
      (fun _ => Except.error { status := none, message := "upgrade failed" })
      { status := 101, headers := [] } =
    Except.error (Error.InvalidResponsePayload
      { status := none, message := "upgrade failed" }) :=
  rfl

/-- C2 (amended): on a status-101 response the upgrade path returns a
`ResponseValue` carrying that exact status, the response's headers, and the
upgraded handle when obtaining the handle succeeds, and
`InvalidResponsePayload` carrying the handshake failure when it fails; on
any other status it returns `UnexpectedResponse` carrying the original
response unchanged. -/
theorem upgrade_amended_spec {E : Type}
    (up : Response → Except ReqwestError Upgraded) (response : Response) :
    (response.status = SWITCHING_PROTOCOLS → ∀ u, up response = Except.ok u →
      ResponseValue.upgrade (E := E) up response =
        Except.ok { inner := u,
                    status := response.status,
                    headers := response.headers }) ∧
    (response.status = SWITCHING_PROTOCOLS → ∀ err,
      up response = Except.error err →
      ResponseValue.upgrade (E := E) up response =
        Except.error (Error.InvalidResponsePayload err)) ∧
    (response.status ≠ SWITCHING_PROTOCOLS →
      ResponseValue.upgrade (E := E) up response =
        Except.error (Error.UnexpectedResponse response)) := by
  refine ⟨?_, ?_, ?_⟩
  · intro h u hu
    simp [ResponseValue.upgrade, h, hu]
  · intro h err herr
    simp [ResponseValue.upgrade, h, herr]
  · intro h
    simp [ResponseValue.upgrade, h]

/-- C2 witness: the amended theorem applied to a concrete status-101
response whose handshake succeeds. -/
theorem upgrade_amended_witness :
    ResponseValue.upgrade (E := Unit) (fun _ => Except.ok { token := 7 })
      { status := 101, headers := [] } =
    Except.ok { inner := { token := 7 }, status := 101, headers := [] } :=
  (upgrade_amended_spec (fun _ => Except.ok { token := 7 })
    { status := 101, headers := [] }).1 rfl { token := 7 } rfl

/-- C4: the typed-decode path returns `InvalidResponsePayload` carrying the
decode failure when the body fails to decode, and otherwise a
`ResponseValue` whose `into_inner` is the decoded value and whose status
and headers equal the source response's. -/
theorem from_response_spec {T E : Type}
    (json : Response → Except ReqwestError T) (response : Response) :
    (∀ err, json response = Except.error err →
      ResponseValue.from_response (E := E) json response =
        Except.error (Error.InvalidResponsePayload err)) ∧
    (∀ v, json response = Except.ok v →
      ∃ rv, ResponseValue.from_response (E := E) json response = Except.ok rv ∧
        rv.into_inner = v ∧ rv.status = response.status ∧
        rv.headers = response.headers) := by
  constructor
  · intro err herr
    simp [ResponseValue.from_response, herr]
  · intro v hv
    refine ⟨{ inner := v, status := response.status,
              headers := response.headers }, ?_, rfl, rfl, rfl⟩
    simp [ResponseValue.from_response, hv]

/-- Source `dropPlus` fixes any list not headed by a plus sign. -/
theorem dropPlus_of_head_ne (c : Char) (rest : List Char) (hc : c ≠ '+') :
    dropPlus (c :: rest) = c :: rest := by
  unfold dropPlus
  split
  · rename_i heq
    injection heq with h1 h2
    exact absurd h1 hc
  · rfl

/-- The spec-side literal predicate, reduced to conditions on the
plus-stripped character list. -/
theorem specU64Literal_iff_dropPlus (s : String) (v : Nat) :
    specU64Literal s v ↔
      (dropPlus s.data ≠ [] ∧ (∀ c ∈ dropPlus s.data, c.isDigit) ∧
        digitsValue (dropPlus s.data) = v ∧ v < 2 ^ 64) := by
  unfold specU64Literal
  rcases hs : s.data with _ | ⟨c, rest⟩
  · constructor
    · rintro ⟨ds, h1 | h1, hne, -⟩
      · exact absurd h1.symm hne
      · exact List.noConfusion h1
    · rintro ⟨hne, -⟩
      exact absurd (show dropPlus [] = [] from rfl) hne
  · by_cases hc : c = '+'
    · subst hc
      have hdp : dropPlus ('+' :: rest) = rest := rfl
      rw [hdp]
      constructor
      · rintro ⟨ds, h1 | h1, hne, hdig, hval, hlt⟩
        · exfalso
          have hplus : ('+' : Char).isDigit := by
            refine hdig '+' ?_
            rw [← h1]
            exact List.mem_cons_self _ _
          simp [Char.isDigit] at hplus
        · injection h1 with hhead htail
          subst htail
          exact ⟨hne, hdig, hval, hlt⟩
      · rintro ⟨hne, hdig, hval, hlt⟩
        exact ⟨rest, Or.inr rfl, hne, hdig, hval, hlt⟩
    · rw [dropPlus_of_head_ne c rest hc]
      constructor
      · rintro ⟨ds, h1 | h1, hne, hdig, hval, hlt⟩
        · subst h1
          exact ⟨hne, hdig, hval, hlt⟩
        · injection h1 with hhead htail
          exact absurd hhead hc
      · rintro ⟨hne, hdig, hval, hlt⟩
        exact ⟨c :: rest, Or.inl rfl, hne, hdig, hval, hlt⟩

/-- Rust `u64` parsing succeeds with `v` exactly when the input is a
textual unsigned 64-bit decimal literal denoting `v`. -/
theorem parseU64_some_iff (s : String) (v : Nat) :
    parseU64 s = some v ↔ specU64Literal s v := by
  rw [specU64Literal_iff_dropPlus]
  unfold parseU64
  by_cases h1 : dropPlus s.data ≠ [] ∧ (dropPlus s.data).all Char.isDigit
  · rw [if_pos h1]
    by_cases h2 : digitsValue (dropPlus s.data) < 2 ^ 64
    · rw [if_pos h2]
      constructor
      · intro h
        obtain rfl : digitsValue (dropPlus s.data) = v := by
          injection h
        exact ⟨h1.1, by simpa [List.all_eq_true] using h1.2, rfl, h2⟩
      · rintro ⟨-, -, hval, -⟩
        exact congrArg some hval
    · rw [if_neg h2]
      constructor
      · intro h
        exact Option.noConfusion h
      · rintro ⟨-, -, hval, hlt⟩
        exact absurd (hval ▸ hlt) h2
  · rw [if_neg h1]
    constructor
    · intro h
      exact Option.noConfusion h
    · rintro ⟨hne, hdig, -, -⟩
      exact absurd ⟨hne, by simpa [List.all_eq_true] using hdig⟩ h1

/-- C6 counterexample: the header value 18446744073709551616 (2^64) is a
valid non-negative integer literal, yet `content_length()` is absent there,
because the value does not fit in an unsigned 64-bit integer. -/
theorem content_length_counterexample :
    ("18446744073709551616".data ≠ [] ∧
      ∀ c ∈ "18446744073709551616".data, c.isDigit) ∧
    ResponseValue.content_length
      { inner := (), status := 200,
        headers := [(CONTENT_LENGTH,
          "18446744073709551616".data.map Char.toNat)] } = none := by
  exact ⟨⟨by decide, by decide⟩, by decide⟩

/-- C6 (amended): `content_length()` returns `v` exactly when the
content-length header is present, its bytes decode as visible-ASCII text,
and that text is an unsigned 64-bit decimal literal denoting `v` (optional
leading plus sign, one or more digits, value below 2^64); in every other
case — header missing, non-decodable, non-numeric, negative, or out of
64-bit range — it is absent; being a total function into an option type it
never fails. -/
theorem content_length_amended_spec {T : Type} (rv : ResponseValue T)
    (v : Nat) :
    rv.content_length = some v ↔
      ∃ hv s, HeaderMap.get rv.headers CONTENT_LENGTH = some hv ∧
        HeaderValue.to_str hv = some s ∧ specU64Literal s v := by
  unfold ResponseValue.content_length
  cases hget : HeaderMap.get rv.headers CONTENT_LENGTH with
  | none => simp [hget]
  | some hv =>
    cases hstr : HeaderValue.to_str hv with
    | none => simp [hstr]
    | some s => simp [hstr, parseU64_some_iff]

/-- C6 witness: the amended characterization applied to a concrete
response value whose content-length header holds the bytes of "42". -/
theorem content_length_amended_witness :
    ResponseValue.content_length
      { inner := (), status := 200,
        headers := [(CONTENT_LENGTH, [52, 50])] } = some 42 :=
  (content_length_amended_spec
    { inner := (), status := 200,
      headers := [(CONTENT_LENGTH, [52, 50])] } 42).mpr
    ⟨[52, 50], "42", by decide, by decide,
      ⟨['4', '2'], Or.inl (by decide), by decide, by decide, by decide,
        by decide⟩⟩

/-- C4 witness: the typed-decode theorem applied to a concrete response
whose body decodes to the number 7. -/
theorem from_response_witness :
    ∃ rv : ResponseValue Nat,
      ResponseValue.from_response (E := Unit) (fun _ => Except.ok 7)
        { status := 200, headers := [] } = Except.ok rv ∧
      rv.into_inner = 7 ∧ rv.status = 200 ∧ rv.headers = [] := by
  have h := (from_response_spec (E := Unit) (fun _ => Except.ok 7)
    { status := 200, headers := [] }).2 7 rfl
  simpa using h

/-- C7: the path-segment encode set contains (at minimum) the controls,
space, double quote, hash, less-than, greater-than, question mark,
backtick, the braces, slash and percent; every occurrence of a byte in the
set is rewritten to a three-byte percent escape wherever it appears; and on
the concrete inputs: the bytes of "100%" encode to the bytes of "100%25"
(so the output is not "100%"), and the bytes of "100%25" are not left
as-is (the percent is escaped again, not reinterpreted). -/
theorem encode_path_spec :
    (∀ b, b < 32 → inPathSet b = true) ∧
    (inPathSet 127 = true) ∧
    (∀ b ∈ [32, 34, 35, 60, 62, 63, 96, 123, 125, 47, 37],
      inPathSet b = true) ∧
    (∀ xs ys b, inPathSet b = true →
      encode_path (xs ++ b :: ys) =
        encode_path xs ++ 37 :: hexUpper (b / 16) :: hexUpper (b % 16) ::
          encode_path ys) ∧
    encode_path [49, 48, 48, 37] = [49, 48, 48, 37, 50, 53] ∧
    encode_path [49, 48, 48, 37] ≠ [49, 48, 48, 37] ∧
    encode_path [49, 48, 48, 37, 50, 53] ≠ [49, 48, 48, 37, 50, 53] := by
  refine ⟨by decide, by decide, by decide, ?_, by decide, by decide, by decide⟩
  intro xs ys b hb
  simp [encode_path, List.flatMap_append, List.flatMap_cons, encodeByte, hb]

/-- C7 witness: the universal conjuncts applied at concrete inputs — the
control byte 31 is in the encode set, and a percent byte between two
digits is escaped in place. -/
theorem encode_path_witness :
    inPathSet 31 = true ∧
    encode_path ([49] ++ 37 :: [50]) =
      encode_path [49] ++ 37 :: hexUpper (37 / 16) :: hexUpper (37 % 16) ::
        encode_path [50] :=
  ⟨encode_path_spec.1 31 (by decide),
   encode_path_spec.2.2.2.1 [49] [50] 37 (by decide)⟩

/-- Folding named parts into an empty multipart form keeps exactly the
given pairs, in order. -/
theorem form_foldl_parts (pairs acc : Form) :
    pairs.foldl (fun f p => Form.part f p.1 (Part.stream p.2)) acc =
      acc ++ pairs := by
  induction pairs generalizing acc with
  | nil => simp
  | cons p ps ih =>
    rw [List.foldl_cons, ih]
    simp [Form.part, Part.stream]

/-- C8: `form_urlencoded` fails with `InvalidRequest` exactly when
serialization fails, and otherwise sets the
application/x-www-form-urlencoded content-type header and installs the
serialized body; `form_from_raw` always succeeds, setting the
multipart/form-data content-type header and building the form from exactly
the given (field-name, raw-byte-value) pairs. -/
theorem form_helpers_spec {E : Type} (rb : RequestBuilder) :
    (∀ dbg, RequestBuilder.form_urlencoded (E := E) rb (Except.error dbg) =
      Except.error (Error.InvalidRequest
        ("failed to serialize body: " ++ dbg))) ∧
    (∀ s, RequestBuilder.form_urlencoded (E := E) rb (Except.ok s) =
      Except.ok { headers := rb.headers ++
                    [("content-type", "application/x-www-form-urlencoded")],
                  body := some s,
                  form := rb.form }) ∧
    (∀ pairs, RequestBuilder.form_from_raw (E := E) rb pairs =
      Except.ok { headers := rb.headers ++
                    [("content-type", "multipart/form-data")],
                  body := rb.body,
                  form := some pairs }) := by
  refine ⟨fun dbg => rfl, fun s => rfl, fun pairs => ?_⟩
  simp [RequestBuilder.form_from_raw, RequestBuilder.header,
    RequestBuilder.multipart, Form.new, form_foldl_parts]

/-- C10: the `Debug` rendering of an `Error<E>` is character-for-character
its `Display` rendering, for every error value and every rendering of the
external pieces. -/
theorem debug_eq_display {E : Type} (fmtStatus : Nat → String)
    (fmtHeaders : HeaderMap → String) (dbgE : E → String)
    (dbgResp : Response → String) (e : Error E) :
    Error.debugString fmtStatus fmtHeaders dbgE dbgResp e =
      Error.displayString fmtStatus fmtHeaders dbgE dbgResp e :=
  rfl

end Progenitor
